import Mathlib

/-!
Verification development for the cricket video-analysis backend
(`backend/video_analysis/cricket_analyzer.py` and `backend/server.py`).

The evaluation layer (`_score_metric`, the per-field aggregation inside
`evaluate_technique`, the head-position linear score, the feedback
generators and `_default_evaluation`) is embedded over `ℚ`: every float
the Python code manipulates there is a rational number and no
transcendental function occurs on that path.  The geometry layer
(`calculate_angle`, `calculate_spine_lean`, `calculate_foot_angle`)
uses `arccos` / `atan2` and is embedded over `ℝ`.
-/

namespace Cricket

/-- Python's built-in `round` (and NumPy's scalar rounding): round half
to even.  `int(...)` truncation in the source is embedded as `Int.floor`
only where the operand is provably nonnegative. -/
def pythonRound (q : ℚ) : ℤ :=
  if q - ⌊q⌋ < 1/2 then ⌊q⌋
  else if 1/2 < q - ⌊q⌋ then ⌊q⌋ + 1
  else if ⌊q⌋ % 2 = 0 then ⌊q⌋ else ⌊q⌋ + 1

/-- One per-frame metrics record, as produced by
`CricketVideoAnalyzer.analyze_biomechanics`: the dict
`{elbow_angle, spine_lean, head_alignment, foot_angle}` is always fully
populated. -/
structure FrameMetrics where
  elbow_angle : ℚ
  spine_lean : ℚ
  head_alignment : ℚ
  foot_angle : ℚ
deriving DecidableEq

/-- A threshold band as stored in `CricketVideoAnalyzer.thresholds` for
the three banded metrics: a `good` range and an `excellent` range, each
an inclusive pair. -/
structure Band where
  good : ℚ × ℚ
  excellent : ℚ × ℚ
deriving DecidableEq

/-- `self.thresholds['elbow_angle']` (cricket_analyzer.py line 38). -/
def elbow_angle_thresholds : Band := { good := (90, 135), excellent := (105, 125) }

/-- `self.thresholds['spine_lean']` (cricket_analyzer.py line 39). -/
def spine_lean_thresholds : Band := { good := (10, 30), excellent := (15, 25) }

/-- `self.thresholds['foot_angle']` (cricket_analyzer.py line 41). -/
def foot_angle_thresholds : Band := { good := (15, 45), excellent := (20, 35) }

/-- `CricketVideoAnalyzer._score_metric` (cricket_analyzer.py lines
248-265).  The two draws of `np.random.random()` (one consumed in the
excellent branch as `int(r*2)`, one in the good branch as `int(r*3)`)
are passed in as the parameters `r2` and `r3`, each ranging over
`[0, 1)`; `int` truncation of those nonnegative products is `⌊·⌋`.
Python's `if not value` test on a float is `value = 0`. -/
def score_metric (value : ℚ) (thresholds : Band) (r2 r3 : ℚ) : ℤ :=
  if value = 0 then 1
  else if thresholds.excellent.1 ≤ value ∧ value ≤ thresholds.excellent.2 then
    9 + ⌊r2 * 2⌋
  else if thresholds.good.1 ≤ value ∧ value ≤ thresholds.good.2 then
    6 + ⌊r3 * 3⌋
  else
    max 1 (6 - ⌊|value - (thresholds.excellent.1 + thresholds.excellent.2) / 2| / 10⌋)

/-- The per-field aggregation step of `evaluate_technique`
(cricket_analyzer.py lines 205-207): collect the values strictly
greater than zero, and return `np.mean(values) if values else 0`. -/
def aggregate_metric (vals : List ℚ) : ℚ :=
  if (vals.filter (fun v => 0 < v)).isEmpty then 0
  else (vals.filter (fun v => 0 < v)).sum / (vals.filter (fun v => 0 < v)).length

/-- The `avg_metrics` dict built by `evaluate_technique`
(cricket_analyzer.py lines 204-207), one aggregation per field. -/
def avg_metrics (all_metrics : List FrameMetrics) : FrameMetrics where
  elbow_angle := aggregate_metric (all_metrics.map (·.elbow_angle))
  spine_lean := aggregate_metric (all_metrics.map (·.spine_lean))
  head_alignment := aggregate_metric (all_metrics.map (·.head_alignment))
  foot_angle := aggregate_metric (all_metrics.map (·.foot_angle))

/-- The head-position score of `evaluate_technique`
(cricket_analyzer.py lines 220-222): `head_score = 10 - alignment*10`,
then `max(1, min(10, head_score))`, then Python `round`. -/
def head_position_score (head_alignment : ℚ) : ℤ :=
  pythonRound (max 1 (min 10 (10 - head_alignment * 10)))

/-- `CricketVideoAnalyzer._get_footwork_feedback` (lines 267-278). -/
def get_footwork_feedback (foot_angle : ℚ) : List String :=
  (if foot_angle < 15 then
    ["Try to point your front foot more towards the target"]
  else if 45 < foot_angle then
    ["Front foot is pointing too wide, align more towards the pitch"]
  else
    ["Good foot positioning towards the target"])
  ++ ["Focus on balanced weight transfer during the shot"]

/-- `CricketVideoAnalyzer._get_head_feedback` (lines 280-289). -/
def get_head_feedback (head_alignment : ℚ) : List String :=
  if 1/5 < head_alignment then
    ["Keep your head more directly over your front knee",
     "This will improve balance and shot accuracy"]
  else
    ["Excellent head position over the front knee"]

/-- `CricketVideoAnalyzer._get_swing_feedback` (lines 291-302). -/
def get_swing_feedback (elbow_angle : ℚ) : List String :=
  (if elbow_angle < 90 then
    ["Try to keep your front elbow higher during the shot"]
  else if 135 < elbow_angle then
    ["Front elbow is too high, lower it slightly for better control"]
  else
    ["Good elbow positioning for controlled swing"])
  ++ ["Maintain smooth acceleration through the ball"]

/-- `CricketVideoAnalyzer._get_balance_feedback` (lines 304-314). -/
def get_balance_feedback (spine_lean : ℚ) : List String :=
  if spine_lean < 10 then
    ["Lean slightly forward for better balance and power"]
  else if 30 < spine_lean then
    ["Reduce forward lean to maintain better balance"]
  else
    ["Good spine angle for balanced shot execution"]

/-- `CricketVideoAnalyzer._get_followthrough_feedback` (lines 316-323). -/
def get_followthrough_feedback (score : ℤ) : List String :=
  if 8 ≤ score then
    ["Excellent overall technique", "Continue practicing for consistency"]
  else if 6 ≤ score then
    ["Good technique with room for refinement", "Focus on identified weak areas"]
  else
    ["Technique needs improvement", "Practice basic fundamentals regularly"]

/-- The `scores` mapping of an evaluation result: the five fixed
categories, each an integer. -/
structure Scores where
  footwork : ℤ
  head_position : ℤ
  swing_control : ℤ
  balance : ℤ
  follow_through : ℤ
deriving DecidableEq

/-- The `feedback` mapping of an evaluation result: an ordered list of
strings per category. -/
structure Feedback where
  footwork : List String
  head_position : List String
  swing_control : List String
  balance : List String
  follow_through : List String
deriving DecidableEq

/-- The dict returned by `evaluate_technique` (lines 242-246). -/
structure EvaluationResult where
  scores : Scores
  feedback : Feedback
  metrics_summary : FrameMetrics
deriving DecidableEq

/-- `CricketVideoAnalyzer._default_evaluation` (lines 325-348). -/
def default_evaluation : EvaluationResult where
  scores :=
    { footwork := 5, head_position := 5, swing_control := 5, balance := 5,
      follow_through := 5 }
  feedback :=
    { footwork := ["Analysis incomplete - please ensure clear video quality"],
      head_position := ["Analysis incomplete - please ensure clear video quality"],
      swing_control := ["Analysis incomplete - please ensure clear video quality"],
      balance := ["Analysis incomplete - please ensure clear video quality"],
      follow_through := ["Analysis incomplete - please ensure clear video quality"] }
  metrics_summary :=
    { elbow_angle := 0, spine_lean := 0, head_alignment := 0, foot_angle := 0 }

/-- `CricketVideoAnalyzer.evaluate_technique` (lines 198-246).  The six
random draws potentially consumed by the three `_score_metric` calls
(footwork, swing control, balance) are the parameters `rF2 rF3 rS2 rS3
rB2 rB3`.  `follow_through` is Python `round` of `np.mean` of the four
scores already inserted into the dict, in insertion order. -/
def evaluate_technique (rF2 rF3 rS2 rS3 rB2 rB3 : ℚ)
    (all_metrics : List FrameMetrics) : EvaluationResult :=
  if all_metrics.isEmpty then default_evaluation
  else
    let avg := avg_metrics all_metrics
    let foot_score := score_metric avg.foot_angle foot_angle_thresholds rF2 rF3
    let head_score := head_position_score avg.head_alignment
    let swing_score := score_metric avg.elbow_angle elbow_angle_thresholds rS2 rS3
    let balance_score := score_metric avg.spine_lean spine_lean_thresholds rB2 rB3
    let follow_through_score :=
      pythonRound (((foot_score + head_score + swing_score + balance_score : ℤ) : ℚ) / 4)
    { scores :=
        { footwork := foot_score, head_position := head_score,
          swing_control := swing_score, balance := balance_score,
          follow_through := follow_through_score },
      feedback :=
        { footwork := get_footwork_feedback avg.foot_angle,
          head_position := get_head_feedback avg.head_alignment,
          swing_control := get_swing_feedback avg.elbow_angle,
          balance := get_balance_feedback avg.spine_lean,
          follow_through := get_followthrough_feedback follow_through_score },
      metrics_summary := avg }

/-! ### Geometry layer (`ℝ`) -/

/-- One pose landmark: the Python code passes 3-element lists
`[x, y, z]` and slices to the first two coordinates for angle math. -/
structure Landmark where
  x : ℝ
  y : ℝ
  z : ℝ

/-- Python's `math.atan2`, restricted to real arguments (both call
sites pass absolute values, so only the closed first quadrant matters;
`math.atan2(0.0, 0.0) = 0.0`, it does not raise). -/
noncomputable def atan2 (y x : ℝ) : ℝ :=
  if 0 < x then Real.arctan (y / x)
  else if x < 0 ∧ 0 ≤ y then Real.arctan (y / x) + Real.pi
  else if x < 0 ∧ y < 0 then Real.arctan (y / x) - Real.pi
  else if x = 0 ∧ 0 < y then Real.pi / 2
  else if x = 0 ∧ y < 0 then -(Real.pi / 2)
  else 0

/-- Python's `math.degrees`. -/
noncomputable def degrees (t : ℝ) : ℝ := t * 180 / Real.pi

/-- `CricketVideoAnalyzer.calculate_angle` (cricket_analyzer.py lines
66-85).  When one of the two vectors has zero length, NumPy evaluates
`0.0 / 0.0` to NaN with a `RuntimeWarning` — not an exception — so the
bare `except` on line 84 does not fire and NaN propagates through
`np.clip`, `np.arccos` and `math.degrees` to the caller.  That NaN
return is modelled as `none`; a finite float return is `some`. -/
noncomputable def calculate_angle (point1 point2 point3 : Landmark) : Option ℝ :=
  let v1 : ℝ × ℝ := (point1.x - point2.x, point1.y - point2.y)
  let v2 : ℝ × ℝ := (point3.x - point2.x, point3.y - point2.y)
  let n1 := Real.sqrt (v1.1 ^ 2 + v1.2 ^ 2)
  let n2 := Real.sqrt (v2.1 ^ 2 + v2.2 ^ 2)
  if n1 * n2 = 0 then none
  else
    let cos_angle := (v1.1 * v2.1 + v1.2 * v2.2) / (n1 * n2)
    some (degrees (Real.arccos (min 1 (max (-1) cos_angle))))

/-- `CricketVideoAnalyzer.calculate_spine_lean` (cricket_analyzer.py
lines 87-102).  Every step is total on real inputs (`math.atan2` never
raises), so the `except` branch returning `0.0` is unreachable for
numeric landmarks and is not part of the embedding. -/
noncomputable def calculate_spine_lean (hip shoulder : Landmark) : ℝ :=
  |90 - degrees (atan2 |shoulder.y - hip.y| |shoulder.x - hip.x|)|

/-- `CricketVideoAnalyzer.calculate_foot_angle` (cricket_analyzer.py
lines 117-129).  The source guards `toe[0] - ankle[0] if toe else 0`,
so a falsy `toe` argument yields the zero vector; that guard is the
`Option` on `toe`. -/
noncomputable def calculate_foot_angle (ankle : Landmark) (toe : Option Landmark) : ℝ :=
  let dx : ℝ := match toe with | some t => t.x - ankle.x | none => 0
  let dy : ℝ := match toe with | some t => t.y - ankle.y | none => 0
  degrees (atan2 |dy| |dx|)

/-! ### Job layer (`backend/server.py`)

Pose estimation (MediaPipe) and video decoding (OpenCV) are external
capabilities: a video is modelled by whether its file exists, whether
it opens, and the per-frame outcome of the pose/metrics stage — `none`
for a frame without detected landmarks (which contributes nothing to
the metrics sequence, cricket_analyzer.py lines 385-392), `some m` for
a frame whose landmarks produced the metrics record `m`. -/

/-- A video input to `CricketVideoAnalyzer.analyze_video_file`. -/
structure VideoInput where
  path : String
  file_exists : Bool
  opens : Bool
  frames : List (Option FrameMetrics)

/-- The successful payload of `analyze_video_file` (lines 412-425),
restricted to the fields the server consumes. -/
structure AnalyzeOk where
  evaluation : EvaluationResult
  frames_processed : Nat
  frames_with_pose : Nat
deriving DecidableEq

/-- `CricketVideoAnalyzer.analyze_video_file` (cricket_analyzer.py
lines 350-437).  Any exception raised inside is re-raised as
`Exception("Video analysis failed: " + str(e))` on line 432; the two
failure modes of this path are the missing-file check (line 357) and
the failed-open check (line 362). -/
def analyze_video_file (rF2 rF3 rS2 rS3 rB2 rB3 : ℚ) (v : VideoInput) :
    Except String AnalyzeOk :=
  if !v.file_exists then
    Except.error ("Video analysis failed: Video file not found: " ++ v.path)
  else if !v.opens then
    Except.error "Video analysis failed: Could not open video file"
  else
    let all_metrics := v.frames.filterMap id
    Except.ok
      { evaluation := evaluate_technique rF2 rF3 rS2 rS3 rB2 rB3 all_metrics,
        frames_processed := v.frames.length,
        frames_with_pose := all_metrics.length }

/-- The fields of the `analysis_results[analysis_id]` record that
`process_video_analysis` writes in its terminal update
(server.py lines 78-86 on success, 97-101 on failure). -/
structure JobRecord where
  status : String
  error_message : Option String
  completed_at_set : Bool
  scores : Option Scores
  feedback : Option Feedback
  metrics_summary : Option FrameMetrics
deriving DecidableEq

/-- `process_video_analysis` (server.py lines 68-109), given the
outcome of the `analyze_video_file` call it awaits.  The returned pair
is the job's terminal record and whether the uploaded input file was
actually removed; the cleanup on lines 105-109 attempts removal only
when `is_uploaded` and the file still exists, and swallows a removal
failure (the function is total in `remove_succeeds`). -/
def process_video_analysis (analysis : Except String AnalyzeOk)
    (is_uploaded file_still_exists remove_succeeds : Bool) : JobRecord × Bool :=
  match analysis with
  | Except.ok r =>
      ({ status := "completed",
         error_message := none,
         completed_at_set := true,
         scores := some r.evaluation.scores,
         feedback := some r.evaluation.feedback,
         metrics_summary := some r.evaluation.metrics_summary }, false)
  | Except.error e =>
      ({ status := "failed",
         error_message := some e,
         completed_at_set := true,
         scores := none,
         feedback := none,
         metrics_summary := none },
       is_uploaded && file_still_exists && remove_succeeds)

/-! ### Theorems -/

/-- C1: For every nonzero metric value and threshold band, `_score_metric`
returns a score in {9, 10} when the value lies within the excellent range
(inclusive bounds), else a score in {6, 7, 8} when the value lies within
the good range (inclusive bounds), else exactly
`max(1, 6 − floor(|value − center| / 10))` where `center` is the midpoint
of the excellent range; a value of exactly 0 returns score 1.  The random
draws `r2`, `r3` range over `[0, 1)`. -/
theorem score_metric_bands (value r2 r3 : ℚ) (b : Band)
    (h2a : 0 ≤ r2) (h2b : r2 < 1) (h3a : 0 ≤ r3) (h3b : r3 < 1) :
    score_metric 0 b r2 r3 = 1 ∧
    (value ≠ 0 →
      (b.excellent.1 ≤ value ∧ value ≤ b.excellent.2 →
        score_metric value b r2 r3 = 9 ∨ score_metric value b r2 r3 = 10) ∧
      (¬(b.excellent.1 ≤ value ∧ value ≤ b.excellent.2) →
        b.good.1 ≤ value ∧ value ≤ b.good.2 →
        (score_metric value b r2 r3 = 6 ∨ score_metric value b r2 r3 = 7 ∨
          score_metric value b r2 r3 = 8)) ∧
      (¬(b.excellent.1 ≤ value ∧ value ≤ b.excellent.2) →
        ¬(b.good.1 ≤ value ∧ value ≤ b.good.2) →
        score_metric value b r2 r3 =
          max 1 (6 - ⌊|value - (b.excellent.1 + b.excellent.2) / 2| / 10⌋))) := by
  have hf2a : (0 : ℤ) ≤ ⌊r2 * 2⌋ := Int.le_floor.2 (by push_cast; linarith)
  have hf2b : ⌊r2 * 2⌋ < 2 := Int.floor_lt.2 (by push_cast; linarith)
  have hf3a : (0 : ℤ) ≤ ⌊r3 * 3⌋ := Int.le_floor.2 (by push_cast; linarith)
  have hf3b : ⌊r3 * 3⌋ < 3 := Int.floor_lt.2 (by push_cast; linarith)
  refine ⟨by simp [score_metric],
    fun hv => ⟨fun hexc => ?_, fun hnexc hgood => ?_, fun hnexc hngood => ?_⟩⟩
  · simp only [score_metric, if_neg hv, if_pos hexc]
    omega
  · simp only [score_metric, if_neg hv, if_neg hnexc, if_pos hgood]
    omega
  · simp only [score_metric, if_neg hv, if_neg hnexc, if_neg hngood]

/-- C1 witness: value 110 lies in the elbow-angle excellent band
(105, 125), so with draws r2 = r3 = 0 the score is 9 or 10. -/
theorem score_metric_bands_witness :
    score_metric 110 elbow_angle_thresholds 0 0 = 9 ∨
      score_metric 110 elbow_angle_thresholds 0 0 = 10 :=
  ((score_metric_bands 110 0 0 elbow_angle_thresholds (le_refl 0) (by norm_num)
      (le_refl 0) (by norm_num)).2 (by norm_num)).1
    (by norm_num [elbow_angle_thresholds])

/-- C2 counterexample: the default evaluation's feedback line is the
source's literal string, not the line quoted in the claim. -/
theorem default_feedback_line_counterexample :
    default_evaluation.feedback.footwork ≠
      ["analysis incomplete — ensure clear video quality"] := by
  decide

/-- C2 (amended: the shared feedback line is the code's literal string
"Analysis incomplete - please ensure clear video quality"): evaluating an
empty metrics sequence returns the fixed default evaluation — every one of
the five categories scored exactly 5, every category's feedback list equal
to that single line, and metrics_summary with all four fields zero — and
never fails. -/
theorem evaluate_empty_returns_default (rF2 rF3 rS2 rS3 rB2 rB3 : ℚ) :
    evaluate_technique rF2 rF3 rS2 rS3 rB2 rB3 [] = default_evaluation ∧
    default_evaluation.scores =
      { footwork := 5, head_position := 5, swing_control := 5, balance := 5,
        follow_through := 5 } ∧
    default_evaluation.feedback.footwork =
      ["Analysis incomplete - please ensure clear video quality"] ∧
    default_evaluation.feedback.head_position =
      ["Analysis incomplete - please ensure clear video quality"] ∧
    default_evaluation.feedback.swing_control =
      ["Analysis incomplete - please ensure clear video quality"] ∧
    default_evaluation.feedback.balance =
      ["Analysis incomplete - please ensure clear video quality"] ∧
    default_evaluation.feedback.follow_through =
      ["Analysis incomplete - please ensure clear video quality"] ∧
    default_evaluation.metrics_summary =
      { elbow_angle := 0, spine_lean := 0, head_alignment := 0, foot_angle := 0 } :=
  ⟨rfl, rfl, rfl, rfl, rfl, rfl, rfl, rfl⟩

/-- C3: for a sequence of FrameMetrics records and each of the four fields
independently, the aggregate equals the mean of the values strictly greater
than zero across all records, or 0 if no record has a strictly positive
value for that field. -/
theorem aggregate_positive_mean (ms : List FrameMetrics) :
    (∀ f : FrameMetrics → ℚ,
      ((∀ m ∈ ms, ¬0 < f m) → aggregate_metric (ms.map f) = 0) ∧
      ((ms.map f).filter (fun v => 0 < v) ≠ [] →
        aggregate_metric (ms.map f) =
          ((ms.map f).filter (fun v => 0 < v)).sum /
            ((ms.map f).filter (fun v => 0 < v)).length)) ∧
    avg_metrics ms =
      { elbow_angle := aggregate_metric (ms.map (·.elbow_angle)),
        spine_lean := aggregate_metric (ms.map (·.spine_lean)),
        head_alignment := aggregate_metric (ms.map (·.head_alignment)),
        foot_angle := aggregate_metric (ms.map (·.foot_angle)) } := by
  refine ⟨fun f => ⟨fun hall => ?_, fun hne => ?_⟩, rfl⟩
  · have hnil : (ms.map f).filter (fun v => 0 < v) = [] := by
      rw [List.filter_eq_nil_iff]
      intro a ha
      simp only [List.mem_map] at ha
      obtain ⟨m, hm, rfl⟩ := ha
      simpa using hall m hm
    simp [aggregate_metric, hnil]
  · rcases hcase : (ms.map f).filter (fun v => 0 < v) with _ | ⟨a, l⟩
    · exact absurd hcase hne
    · simp [aggregate_metric, hcase]

/-- C3 witness: a one-record sequence whose elbow angle 110 is its only
positive elbow sample, so the aggregate is the mean of the singleton
list [110]. -/
theorem aggregate_positive_mean_witness :
    aggregate_metric (([⟨110, 20, 1/10, 30⟩] : List FrameMetrics).map
        (·.elbow_angle)) =
      ((([⟨110, 20, 1/10, 30⟩] : List FrameMetrics).map
          (·.elbow_angle)).filter (fun v => 0 < v)).sum /
        ((([⟨110, 20, 1/10, 30⟩] : List FrameMetrics).map
          (·.elbow_angle)).filter (fun v => 0 < v)).length :=
  ((aggregate_positive_mean [⟨110, 20, 1/10, 30⟩]).1 (·.elbow_angle)).2
    (by decide)

/-- C8: for every aggregate head_alignment value `a`, the head_position
score equals `round(clamp(10 − a·10, 1, 10))` (Python round, half to
even): `a = 0` gives 10, `a = 1` gives 1 (the formula's 0 is clamped up
to 1), `a = 1/2` gives 5. -/
theorem head_position_score_formula :
    (∀ a : ℚ, head_position_score a = pythonRound (max 1 (min 10 (10 - a * 10)))) ∧
    head_position_score 0 = 10 ∧
    head_position_score 1 = 1 ∧
    head_position_score (1/2) = 5 := by
  refine ⟨fun a => rfl, ?_, ?_, ?_⟩ <;>
    norm_num [head_position_score, pythonRound]

/-- A string append with a nonempty left part is nonempty. -/
lemma append_ne_empty_left (s t : String) (hs : s.length ≠ 0) : s ++ t ≠ "" := by
  intro h
  have h2 := congrArg String.length h
  rw [String.length_append] at h2
  have h4 : ("" : String).length = 0 := rfl
  omega

/-- C4: whenever `analyze_video_file` fails, the job record ends with
status "failed", a non-empty error message and completed_at set; the
uploaded input file is removed exactly when the job was a local upload,
the file still exists and the removal succeeds, and a removal failure is
swallowed — the terminal record does not depend on it. -/
theorem job_failure_terminal (v : VideoInput) (rF2 rF3 rS2 rS3 rB2 rB3 : ℚ)
    (is_uploaded file_still_exists remove_succeeds : Bool) (e : String)
    (h : analyze_video_file rF2 rF3 rS2 rS3 rB2 rB3 v = Except.error e) :
    (process_video_analysis (Except.error e) is_uploaded file_still_exists
        remove_succeeds).1.status = "failed" ∧
    (process_video_analysis (Except.error e) is_uploaded file_still_exists
        remove_succeeds).1.error_message = some e ∧
    e ≠ "" ∧
    (process_video_analysis (Except.error e) is_uploaded file_still_exists
        remove_succeeds).1.completed_at_set = true ∧
    (process_video_analysis (Except.error e) is_uploaded file_still_exists
        remove_succeeds).2 =
      (is_uploaded && file_still_exists && remove_succeeds) ∧
    (process_video_analysis (Except.error e) is_uploaded file_still_exists
        true).1 =
      (process_video_analysis (Except.error e) is_uploaded file_still_exists
        false).1 := by
  refine ⟨rfl, rfl, ?_, rfl, rfl, rfl⟩
  unfold analyze_video_file at h
  by_cases hfe : v.file_exists
  · by_cases hop : v.opens
    · simp [hfe, hop] at h
    · simp [hfe, hop] at h
      rw [← h]
      decide
  · simp [hfe] at h
    rw [← h]
    exact append_ne_empty_left _ _ (by decide)

/-- C4 witness: a missing input file at path "input.mp4" yields a failed
record with the wrapped non-empty message. -/
theorem job_failure_terminal_witness :
    (process_video_analysis
        (Except.error ("Video analysis failed: Video file not found: " ++
          "input.mp4")) true true false).1.status = "failed" ∧
    ("Video analysis failed: Video file not found: " ++ "input.mp4") ≠ "" :=
  ⟨(job_failure_terminal ⟨"input.mp4", false, true, []⟩ 0 0 0 0 0 0
      true true false _ rfl).1,
   (job_failure_terminal ⟨"input.mp4", false, true, []⟩ 0 0 0 0 0 0
      true true false _ rfl).2.2.1⟩

/-- C5: for every readable video (the file exists and opens) in which no
frame yields detected pose landmarks, the analysis succeeds with the
fixed default evaluation and the job record ends "completed" (all five
scores 5), never "failed". -/
theorem insufficient_data_completed (v : VideoInput) (rF2 rF3 rS2 rS3 rB2 rB3 : ℚ)
    (is_uploaded file_still_exists remove_succeeds : Bool)
    (hfe : v.file_exists = true) (hop : v.opens = true)
    (hnopose : ∀ f ∈ v.frames, f = none) :
    analyze_video_file rF2 rF3 rS2 rS3 rB2 rB3 v =
      Except.ok { evaluation := default_evaluation,
                  frames_processed := v.frames.length,
                  frames_with_pose := 0 } ∧
    (process_video_analysis (analyze_video_file rF2 rF3 rS2 rS3 rB2 rB3 v)
        is_uploaded file_still_exists remove_succeeds).1.status = "completed" ∧
    (process_video_analysis (analyze_video_file rF2 rF3 rS2 rS3 rB2 rB3 v)
        is_uploaded file_still_exists remove_succeeds).1.status ≠ "failed" ∧
    (process_video_analysis (analyze_video_file rF2 rF3 rS2 rS3 rB2 rB3 v)
        is_uploaded file_still_exists remove_succeeds).1.scores =
      some { footwork := 5, head_position := 5, swing_control := 5,
             balance := 5, follow_through := 5 } ∧
    (process_video_analysis (analyze_video_file rF2 rF3 rS2 rS3 rB2 rB3 v)
        is_uploaded file_still_exists remove_succeeds).1.completed_at_set
      = true := by
  have hm : v.frames.filterMap id = [] := List.filterMap_eq_nil_iff.2 hnopose
  have han : analyze_video_file rF2 rF3 rS2 rS3 rB2 rB3 v =
      Except.ok { evaluation := default_evaluation,
                  frames_processed := v.frames.length,
                  frames_with_pose := 0 } := by
    unfold analyze_video_file
    rw [hfe, hop]
    simp [hm, evaluate_technique]
  refine ⟨han, ?_, ?_, ?_, ?_⟩ <;> rw [han]
  · rfl
  · exact (by decide : ("completed" : String) ≠ "failed")
  · rfl
  · rfl

/-- C5 witness: a readable two-frame video with no detected pose in
either frame completes with the neutral default scores. -/
theorem insufficient_data_completed_witness :
    (process_video_analysis
        (analyze_video_file 0 0 0 0 0 0 ⟨"v.mp4", true, true, [none, none]⟩)
        false true true).1.status = "completed" ∧
    (process_video_analysis
        (analyze_video_file 0 0 0 0 0 0 ⟨"v.mp4", true, true, [none, none]⟩)
        false true true).1.scores =
      some { footwork := 5, head_position := 5, swing_control := 5,
             balance := 5, follow_through := 5 } :=
  ⟨(insufficient_data_completed ⟨"v.mp4", true, true, [none, none]⟩ 0 0 0 0 0 0
      false true true rfl rfl (by decide)).2.1,
   (insufficient_data_completed ⟨"v.mp4", true, true, [none, none]⟩ 0 0 0 0 0 0
      false true true rfl rfl (by decide)).2.2.2.1⟩

/-- In the closed first quadrant `atan2` is nonnegative. -/
lemma atan2_quadrant_nonneg {y x : ℝ} (hy : 0 ≤ y) (hx : 0 ≤ x) :
    0 ≤ atan2 y x := by
  unfold atan2
  split_ifs with h1 h2 h3 h4 h5
  · have hq : 0 ≤ y / x := div_nonneg hy (le_of_lt h1)
    have hm := Real.arctan_strictMono.monotone hq
    rwa [Real.arctan_zero] at hm
  · linarith [h2.1]
  · linarith [h3.1]
  · linarith [Real.pi_pos]
  · linarith [h5.2]
  · exact le_refl 0

/-- In the closed first quadrant `atan2` is at most `π/2`. -/
lemma atan2_quadrant_le {y x : ℝ} (hy : 0 ≤ y) (hx : 0 ≤ x) :
    atan2 y x ≤ Real.pi / 2 := by
  unfold atan2
  split_ifs with h1 h2 h3 h4 h5
  · exact le_of_lt (Real.arctan_lt_pi_div_two _)
  · linarith [h2.1]
  · linarith [h3.1]
  · exact le_refl _
  · linarith [h5.2]
  · linarith [Real.pi_pos]

/-- Conversion to degrees preserves nonnegativity. -/
lemma degrees_nonneg {t : ℝ} (h : 0 ≤ t) : 0 ≤ degrees t :=
  div_nonneg (mul_nonneg h (by norm_num)) (le_of_lt Real.pi_pos)

/-- Conversion to degrees maps `[0, π/2]` below 90. -/
lemma degrees_le_ninety {t : ℝ} (h : t ≤ Real.pi / 2) : degrees t ≤ 90 := by
  unfold degrees
  rw [div_le_iff₀ Real.pi_pos]
  linarith

/-- C6 counterexample: at equal hip and shoulder positions,
`calculate_spine_lean` returns 90, not the claimed degenerate fallback
0.0 — `math.atan2(0.0, 0.0)` is `0.0` and raises nothing, so the
`except` branch never runs and the result is `|90 − 0| = 90`. -/
theorem spine_lean_equal_counterexample :
    calculate_spine_lean ⟨0, 0, 0⟩ ⟨0, 0, 0⟩ = 90 ∧
    calculate_spine_lean ⟨0, 0, 0⟩ ⟨0, 0, 0⟩ ≠ 0 := by
  have h : calculate_spine_lean ⟨0, 0, 0⟩ ⟨0, 0, 0⟩ = 90 := by
    norm_num [calculate_spine_lean, atan2, degrees]
  exact ⟨h, by rw [h]; norm_num⟩

/-- C6 (amended: equal hip and shoulder positions return 90.0, the
value of `|90 − atan2(0,0)_in_degrees|`, not 0.0): for all finite
(hip, shoulder) pairs the result equals
`|90 − atan2(|dy|, |dx|)_in_degrees|` and lies in [0, 90]. -/
theorem spine_lean_range (hip shoulder : Landmark) :
    calculate_spine_lean hip shoulder =
      |90 - degrees (atan2 |shoulder.y - hip.y| |shoulder.x - hip.x|)| ∧
    0 ≤ calculate_spine_lean hip shoulder ∧
    calculate_spine_lean hip shoulder ≤ 90 ∧
    calculate_spine_lean hip hip = 90 := by
  have h1 : 0 ≤ degrees (atan2 |shoulder.y - hip.y| |shoulder.x - hip.x|) :=
    degrees_nonneg (atan2_quadrant_nonneg (abs_nonneg _) (abs_nonneg _))
  have h2 : degrees (atan2 |shoulder.y - hip.y| |shoulder.x - hip.x|) ≤ 90 :=
    degrees_le_ninety (atan2_quadrant_le (abs_nonneg _) (abs_nonneg _))
  refine ⟨rfl, abs_nonneg _, ?_, ?_⟩
  · unfold calculate_spine_lean
    exact abs_le.2 ⟨by linarith, by linarith⟩
  · norm_num [calculate_spine_lean, atan2, degrees]

/-- C7 (code bug): at the degenerate input p1 = p2 = (0,0,0),
p3 = (1,0,0), one of the vectors has zero length; NumPy evaluates
`0.0/0.0` to NaN with a RuntimeWarning rather than raising, so the
`except: return 0.0` fallback never runs and `calculate_angle` returns
NaN (modelled `none`), not the claimed 0.0. -/
theorem angle_degenerate_returns_nan :
    calculate_angle ⟨0, 0, 0⟩ ⟨0, 0, 0⟩ ⟨1, 0, 0⟩ = none ∧
    calculate_angle ⟨0, 0, 0⟩ ⟨0, 0, 0⟩ ⟨1, 0, 0⟩ ≠ some 0 := by
  have h : calculate_angle ⟨0, 0, 0⟩ ⟨0, 0, 0⟩ ⟨1, 0, 0⟩ = none := by
    norm_num [calculate_angle, Real.sqrt_zero]
  exact ⟨h, by rw [h]; simp⟩

/-- C10: for every ankle and reference-point input,
`calculate_foot_angle` returns a value in [0, 90] degrees, because both
components are taken in absolute value before `atan2`. -/
theorem foot_angle_range (ankle : Landmark) (toe : Option Landmark) :
    0 ≤ calculate_foot_angle ankle toe ∧ calculate_foot_angle ankle toe ≤ 90 := by
  unfold calculate_foot_angle
  exact ⟨degrees_nonneg (atan2_quadrant_nonneg (abs_nonneg _) (abs_nonneg _)),
    degrees_le_ninety (atan2_quadrant_le (abs_nonneg _) (abs_nonneg _))⟩

end Cricket
